import Mathlib

/-!
Shallow embedding of the `openai_parsed` assurance engine
(`src/openai_parsed/client.py`) and its concrete parsers
(`src/openai_parsed/parsers.py`).

Python strings are modelled as Lean `String`; Python `int` as `Int`;
`Optional[X]` as `Option X`.  A parser (`Parser[T]`) is a function
`String → Except String T`: `Except.error response` models
`ParseFailedError(response=response)` carrying the original text.
The transport collaborator (`_get_response`, which may itself raise,
for example on a missing credential) is modelled as a function from the
1-based attempt number, the model identifier and the composed prompt to
`Except ε String`: `Except.error e` models a transport failure `e`
propagating out of the attempt.  The attempt record `response_log :
dict[int, str]` (inserted in increasing attempt order) is modelled as
the association list of its entries in insertion order.
String operations are modelled at the ASCII level the code's sentinel
comparisons exercise.
-/

namespace OpenAIParsed

/-- The ASCII whitespace characters Python's `str.strip()` removes:
space, tab, newline, carriage return, vertical tab, form feed. -/
def isPyWhitespace (c : Char) : Bool :=
  c = ' ' || c = '\t' || c = '\n' || c = '\r' || c = '\x0b' || c = '\x0c'

/-- Python `str.strip()`: drop leading and trailing whitespace. -/
def pyStrip (s : String) : String :=
  String.mk (((s.toList.dropWhile isPyWhitespace).reverse.dropWhile isPyWhitespace).reverse)

/-- Python `str.lower()` (ASCII case folding), character by character. -/
def pyLower (s : String) : String :=
  String.mk (s.toList.map Char.toLower)

/-- Python `str.replace(c, "")` for a single character `c`: delete every
occurrence of `c`. -/
def removeChar (c : Char) (s : String) : String :=
  String.mk (s.toList.filter (fun a => a ≠ c))

/-- Helper for `pySplit`: consume the input character by character into
the current segment; as soon as the separator appears as a suffix of the
current segment, the match just completed is the leftmost one, so cut
there (dropping the separator) and start a fresh segment.  This is
exactly Python's leftmost non-overlapping scan, since a match can
neither straddle a cut (Python jumps past the separator) nor complete
earlier than the leftmost one (the separator has fixed length). -/
def splitOnCharsAux (sep : List Char) : List Char → List Char → List (List Char)
  | [], cur => [cur]
  | c :: cs, cur =>
      let cur' := cur ++ [c]
      if sep.isSuffixOf cur' then
        cur'.take (cur'.length - sep.length) :: splitOnCharsAux sep cs []
      else
        splitOnCharsAux sep cs cur'

/-- Python `str.split(sep)` for a non-empty separator: the segments
between the leftmost non-overlapping occurrences of `sep`, empty
segments kept (`"a,b,c".split(",") = ["a","b","c"]`,
`",".split(",") = ["",""]`, `"".split(",") = [""]`,
`"aaa".split("aa") = ["","a"]`).  Python raises `ValueError` on an empty
separator; that case is outside this model. -/
def pySplit (sep : String) (s : String) : List String :=
  (splitOnCharsAux sep.toList s.toList []).map String.mk

/-! ## Concrete parsers (`parsers.py`) -/

/-- `parsers.parse_boolean`: strip and lower-case the response; `"true"`
and `"yes"` parse to `true`, `"false"` and `"no"` to `false`; anything
else raises `ParseFailedError(response=response)`. -/
def parse_boolean (response : String) : Except String Bool :=
  let normalized := pyLower (pyStrip response)
  if normalized = "true" ∨ normalized = "yes" then .ok true
  else if normalized = "false" ∨ normalized = "no" then .ok false
  else .error response

/-- Configuration of `parsers.StringListParser` (`__init__`: separator
defaults to `","`, `allow_empty` to `False`). -/
structure StringListParser where
  separator : String
  allow_empty : Bool
deriving Repr, DecidableEq

/-- `parsers.StringListParser.__call__`: split the response on the
separator, strip each item, keep the non-empty ones; if none remain and
`allow_empty` is false, raise `ParseFailedError(response=response)`. -/
def StringListParser.call (p : StringListParser) (response : String) :
    Except String (List String) :=
  let items := ((pySplit p.separator response).map pyStrip).filter (fun s => s ≠ "")
  if items = [] ∧ p.allow_empty = false then .error response else .ok items

/-! ## The assurance engine (`client.py`) -/

/-- The mutable configuration of `_ParsedOpenAIClient` (`__init__`):
model identifier, standard preface (`Optional[str]`, default `""`),
default maximum retries (default 10), default decline-allowed flag
(default true).  The console collaborator is out of scope. -/
structure ClientState where
  model : String
  std_preface : Option String
  max_retries : Int
  allow_decline : Bool
deriving Repr, DecidableEq

/-- The decline-instruction suffix `_allow_decline_message` set in
`__init__`, verbatim. -/
def allow_decline_message : String :=
  "If you don't have enough knowledge to provide a reasonable answer, respond only with the word 'DECLINED'\n"

/-- `_ParsedOpenAIClient.set_std_preface`. -/
def set_std_preface (client : ClientState) (preface : String) : ClientState :=
  { client with std_preface := some preface }

/-- `_ParsedOpenAIClient.clear_std_preface`. -/
def clear_std_preface (client : ClientState) : ClientState :=
  { client with std_preface := some "" }

/-- The decline normalization of `ensure`:
`raw.strip().replace(chr(34), "").replace(chr(39), "").lower()`, that is
strip whitespace, delete double quotes, delete single quotes, lower-case. -/
def declineNormalized (raw : String) : String :=
  pyLower (removeChar '\'' (removeChar '\"' (pyStrip raw)))

/-- Prompt composition of `ensure` once the preface is a string:
`prompt = self._std_preface + prompt`, then
`prompt += self._allow_decline_message` when decline is allowed. -/
def composePrompt (std_preface : String) (prompt : String) (allow_decline : Bool) : String :=
  let prompt := std_preface ++ prompt
  if allow_decline then prompt ++ allow_decline_message else prompt

/-- Resolution of the `allow_decline` override in `ensure`:
`allow_decline if allow_decline is not None else self._allow_decline`. -/
def resolvedDecline (client : ClientState) (allow_decline : Option Bool) : Bool :=
  allow_decline.getD client.allow_decline

/-- Resolution of the `max_retries` override in `ensure`:
`self._max_retries if max_retries is None else max_retries`. -/
def resolvedRetries (client : ClientState) (max_retries : Option Int) : Int :=
  max_retries.getD client.max_retries

/-- How one call to `ensure` terminates: a successful parse (`return
parsed`), `LLMDeclinedError(prompt=prompt)`,
`LLMRetriesError(max_retries, prompt, response_log)`, or an exception of
the transport collaborator propagating unchanged. -/
inductive EnsureOutcome (ε α : Type) where
  | ok (value : α)
  | declined (prompt : String)
  | retriesExhausted (max_retries : Int) (prompt : String)
      (response_log : List (Nat × String))
  | transportFailure (err : ε)
deriving Repr, DecidableEq

/-- What one call to `ensure` produces: its outcome, the attempt record
at termination, the number of transport dispatches performed, and the
client state after the call. -/
structure EnsureResult (ε α : Type) where
  outcome : EnsureOutcome ε α
  response_log : List (Nat × String)
  dispatches : Nat
  client : ClientState
deriving Repr, DecidableEq

/-- The retry loop of `ensure` (`for attempt in range(1, max_retries + 1)`),
by recursion on the number of remaining iterations.  Each iteration
dispatches to the transport; a transport failure propagates at once
(nothing is recorded for that attempt); otherwise the raw response is
recorded under the attempt number, the decline check runs when decline
is allowed, the parser runs next, and a `ParseFailedError` moves to the
next attempt.  When the iterations are exhausted the loop falls through
to `LLMRetriesError`. -/
def ensureLoop {ε α : Type} (transport : Nat → String → String → Except ε String)
    (parser : String → Except String α) (model : String) (allow_decline : Bool)
    (prompt : String) (max_retries : Int) :
    Nat → Nat → List (Nat × String) → Nat →
      EnsureOutcome ε α × List (Nat × String) × Nat
  | 0, _, response_log, dispatches =>
      (.retriesExhausted max_retries prompt response_log, response_log, dispatches)
  | remaining + 1, attempt, response_log, dispatches =>
      match transport attempt model prompt with
      | .error e => (.transportFailure e, response_log, dispatches + 1)
      | .ok raw =>
          let log' := response_log ++ [(attempt, raw)]
          if allow_decline = true ∧ declineNormalized raw = "declined" then
            (.declined prompt, log', dispatches + 1)
          else
            match parser raw with
            | .ok parsed => (.ok parsed, log', dispatches + 1)
            | .error _ =>
                ensureLoop transport parser model allow_decline prompt max_retries
                  remaining (attempt + 1) log' (dispatches + 1)

/-- `_ParsedOpenAIClient.ensure`: resolve the decline override, replace a
`None` preface by `""` on the instance, compose the prompt, resolve the
retries override, and run the attempt loop from attempt 1 with an empty
attempt record. -/
def ensure {ε α : Type} (client : ClientState) (prompt : String)
    (parser : String → Except String α)
    (max_retries : Option Int) (allow_decline : Option Bool)
    (transport : Nat → String → String → Except ε String) :
    EnsureResult ε α :=
  let ad := resolvedDecline client allow_decline
  let client :=
    if client.std_preface = none then { client with std_preface := some "" } else client
  let prompt := composePrompt (client.std_preface.getD "") prompt ad
  let mr := resolvedRetries client max_retries
  let r := ensureLoop transport parser client.model ad prompt mr mr.toNat 1 [] 0
  { outcome := r.1, response_log := r.2.1, dispatches := r.2.2, client := client }

/-- The prompt a terminal engine error carries: `LLMDeclinedError.prompt`
or `LLMRetriesError.prompt`. -/
def carriedPrompt {ε α : Type} : EnsureOutcome ε α → Option String
  | .declined p => some p
  | .retriesExhausted _ p _ => some p
  | .ok _ => none
  | .transportFailure _ => none

/-! ## Lemmas about the retry loop -/

/-- Appending the k-th attempt record entry to the record of the first
k - 1 attempts gives the record of the first k attempts. -/
theorem entries_snoc (r : Nat → String) (k : Nat) (hk : 1 ≤ k) :
    (List.range (k - 1)).map (fun i => (1 + i, r (1 + i))) ++ [(k, r k)] =
      (List.range k).map (fun i => (1 + i, r (1 + i))) := by
  obtain ⟨j, rfl⟩ : ∃ j, k = j + 1 := ⟨k - 1, by omega⟩
  rw [List.range_succ, List.map_append]
  simp [Nat.add_comm]

/-- Running the retry loop past j consecutive attempts whose transport
succeeds, whose responses are not classified as declines, and whose
responses the parser rejects with `ParseFailedError`: the loop reaches
attempt `attempt + j` with each skipped response appended to the record
and one dispatch counted per skipped attempt. -/
theorem ensureLoop_skip {ε α : Type} (transport : Nat → String → String → Except ε String)
    (parser : String → Except String α) (model : String) (ad : Bool)
    (prompt : String) (mr : Int) (r : Nat → String) :
    ∀ (j remaining attempt : Nat) (log : List (Nat × String)) (d : Nat),
      j ≤ remaining →
      (∀ i, attempt ≤ i → i < attempt + j → transport i model prompt = Except.ok (r i)) →
      (∀ i, attempt ≤ i → i < attempt + j →
        ¬(ad = true ∧ declineNormalized (r i) = "declined")) →
      (∀ i, attempt ≤ i → i < attempt + j → ∃ msg, parser (r i) = Except.error msg) →
      ensureLoop transport parser model ad prompt mr remaining attempt log d =
        ensureLoop transport parser model ad prompt mr (remaining - j) (attempt + j)
          (log ++ (List.range j).map (fun i => (attempt + i, r (attempt + i)))) (d + j) := by
  intro j
  induction j with
  | zero =>
      intro remaining attempt log d _ _ _ _
      simp
  | succ j ih =>
      intro remaining attempt log d hj hT hnd hP
      rw [ih remaining attempt log d (by omega)
        (fun i h1 h2 => hT i h1 (by omega))
        (fun i h1 h2 => hnd i h1 (by omega))
        (fun i h1 h2 => hP i h1 (by omega))]
      have hrem : remaining - j = (remaining - (j + 1)) + 1 := by omega
      rw [hrem]
      have ht1 : transport (attempt + j) model prompt = Except.ok (r (attempt + j)) :=
        hT (attempt + j) (by omega) (by omega)
      obtain ⟨msg, hmsg⟩ := hP (attempt + j) (by omega) (by omega)
      have hnd1 := hnd (attempt + j) (by omega) (by omega)
      simp only [ensureLoop, ht1, hmsg, if_neg hnd1]
      have hlog : (log ++ (List.range j).map (fun i => (attempt + i, r (attempt + i)))) ++
            [(attempt + j, r (attempt + j))] =
          log ++ (List.range (j + 1)).map (fun i => (attempt + i, r (attempt + i))) := by
        rw [List.append_assoc, List.range_succ, List.map_append]
        simp
      rw [hlog]
      rfl

/-- Unfolding `ensure` to one run of `ensureLoop` on the composed prompt:
the preface the composition uses is `std_preface.getD ""` whether the
stored preface was a string or `None`, and the client state after the
call is the input state with the preface normalized to
`some (std_preface.getD "")`. -/
theorem ensure_eq {ε α : Type} (client : ClientState) (prompt : String)
    (parser : String → Except String α) (mro : Option Int) (ado : Option Bool)
    (transport : Nat → String → String → Except ε String) :
    ensure client prompt parser mro ado transport =
      { outcome := (ensureLoop transport parser client.model (resolvedDecline client ado)
            (composePrompt (client.std_preface.getD "") prompt (resolvedDecline client ado))
            (resolvedRetries client mro) (resolvedRetries client mro).toNat 1 [] 0).1,
        response_log := (ensureLoop transport parser client.model (resolvedDecline client ado)
            (composePrompt (client.std_preface.getD "") prompt (resolvedDecline client ado))
            (resolvedRetries client mro) (resolvedRetries client mro).toNat 1 [] 0).2.1,
        dispatches := (ensureLoop transport parser client.model (resolvedDecline client ado)
            (composePrompt (client.std_preface.getD "") prompt (resolvedDecline client ado))
            (resolvedRetries client mro) (resolvedRetries client mro).toNat 1 [] 0).2.2,
        client := { client with std_preface := some (client.std_preface.getD "") } } := by
  obtain ⟨m, pre, mr0, ad0⟩ := client
  cases pre <;> rfl

/-- The prompt carried by a terminal error of the retry loop is the
loop's prompt argument: the loop never alters the composed prompt. -/
theorem ensureLoop_carriedPrompt {ε α : Type}
    (transport : Nat → String → String → Except ε String)
    (parser : String → Except String α) (model : String) (ad : Bool)
    (prompt : String) (mr : Int) :
    ∀ (remaining attempt : Nat) (log : List (Nat × String)) (d : Nat) (p : String),
      carriedPrompt
          (ensureLoop transport parser model ad prompt mr remaining attempt log d).1 =
        some p →
      p = prompt := by
  intro remaining
  induction remaining with
  | zero =>
      intro attempt log d p h
      simp only [ensureLoop, carriedPrompt, Option.some.injEq] at h
      exact h.symm
  | succ rem ih =>
      intro attempt log d p h
      simp only [ensureLoop] at h
      cases ht : transport attempt model prompt with
      | error e =>
          simp [ht, carriedPrompt] at h
      | ok raw =>
          simp only [ht] at h
          by_cases hd : ad = true ∧ declineNormalized raw = "declined"
          · simp only [if_pos hd, carriedPrompt, Option.some.injEq] at h
            exact h.symm
          · simp only [if_neg hd] at h
            cases hp : parser raw with
            | ok v =>
                simp [hp, carriedPrompt] at h
            | error msg =>
                simp only [hp] at h
                exact ih _ _ _ _ h

/-- The full retry loop when attempts 1..k-1 yield responses the parser
rejects (none a decline) and attempt k parses successfully: the parsed
value is returned with k dispatches and a k-entry attempt record. -/
theorem ensureLoop_success {ε α : Type} (transport : Nat → String → String → Except ε String)
    (parser : String → Except String α) (model : String) (ad : Bool)
    (prompt : String) (mr : Int) (r : Nat → String) (k : Nat) (v : α)
    (hk1 : 1 ≤ k) (hk : k ≤ mr.toNat)
    (hT : ∀ i, 1 ≤ i → i ≤ k → transport i model prompt = Except.ok (r i))
    (hnd : ∀ i, 1 ≤ i → i ≤ k → ¬(ad = true ∧ declineNormalized (r i) = "declined"))
    (hfail : ∀ i, 1 ≤ i → i < k → ∃ msg, parser (r i) = Except.error msg)
    (hok : parser (r k) = Except.ok v) :
    ensureLoop transport parser model ad prompt mr mr.toNat 1 [] 0 =
      (.ok v, (List.range k).map (fun i => (1 + i, r (1 + i))), k) := by
  rw [ensureLoop_skip transport parser model ad prompt mr r (k - 1) mr.toNat 1 [] 0
      (by omega)
      (fun i h1 h2 => hT i h1 (by omega))
      (fun i h1 h2 => hnd i h1 (by omega))
      (fun i h1 h2 => hfail i h1 (by omega))]
  have h1k : 1 + (k - 1) = k := by omega
  have hrem : mr.toNat - (k - 1) = (mr.toNat - k) + 1 := by omega
  rw [h1k, hrem]
  have hTk : transport k model prompt = Except.ok (r k) := hT k (by omega) (by omega)
  have hndk := hnd k (by omega) (by omega)
  simp only [ensureLoop, hTk, hok, if_neg hndk, List.nil_append]
  rw [entries_snoc r k hk1]
  have hd : 0 + (k - 1) + 1 = k := by omega
  rw [hd]

/-- The full retry loop when attempts 1..k-1 yield responses the parser
rejects (none a decline) and attempt k yields a response that normalizes
to the decline sentinel (decline allowed): `LLMDeclinedError` carrying
the prompt, k dispatches, a k-entry attempt record. -/
theorem ensureLoop_declined {ε α : Type} (transport : Nat → String → String → Except ε String)
    (parser : String → Except String α) (model : String) (ad : Bool)
    (prompt : String) (mr : Int) (r : Nat → String) (k : Nat)
    (hk1 : 1 ≤ k) (hk : k ≤ mr.toNat)
    (had : ad = true)
    (hT : ∀ i, 1 ≤ i → i ≤ k → transport i model prompt = Except.ok (r i))
    (hnd : ∀ i, 1 ≤ i → i < k → declineNormalized (r i) ≠ "declined")
    (hfail : ∀ i, 1 ≤ i → i < k → ∃ msg, parser (r i) = Except.error msg)
    (hdk : declineNormalized (r k) = "declined") :
    ensureLoop transport parser model ad prompt mr mr.toNat 1 [] 0 =
      (.declined prompt, (List.range k).map (fun i => (1 + i, r (1 + i))), k) := by
  rw [ensureLoop_skip transport parser model ad prompt mr r (k - 1) mr.toNat 1 [] 0
      (by omega)
      (fun i h1 h2 => hT i h1 (by omega))
      (fun i h1 h2 hc => hnd i h1 (by omega) hc.2)
      (fun i h1 h2 => hfail i h1 (by omega))]
  have h1k : 1 + (k - 1) = k := by omega
  have hrem : mr.toNat - (k - 1) = (mr.toNat - k) + 1 := by omega
  rw [h1k, hrem]
  have hTk : transport k model prompt = Except.ok (r k) := hT k (by omega) (by omega)
  simp only [ensureLoop, hTk, if_pos (And.intro had hdk), List.nil_append]
  rw [entries_snoc r k hk1]
  have hd : 0 + (k - 1) + 1 = k := by omega
  rw [hd]

/-- The full retry loop when every one of the n = `max_retries.toNat`
attempts yields a response the parser rejects (none a decline):
`LLMRetriesError` carrying the retries count, the prompt, and the n-entry
attempt record keyed 1..n. -/
theorem ensureLoop_exhausted {ε α : Type} (transport : Nat → String → String → Except ε String)
    (parser : String → Except String α) (model : String) (ad : Bool)
    (prompt : String) (mr : Int) (r : Nat → String) (n : Nat)
    (hn : mr.toNat = n)
    (hT : ∀ i, 1 ≤ i → i ≤ n → transport i model prompt = Except.ok (r i))
    (hnd : ∀ i, 1 ≤ i → i ≤ n → ¬(ad = true ∧ declineNormalized (r i) = "declined"))
    (hfail : ∀ i, 1 ≤ i → i ≤ n → ∃ msg, parser (r i) = Except.error msg) :
    ensureLoop transport parser model ad prompt mr mr.toNat 1 [] 0 =
      (.retriesExhausted mr prompt ((List.range n).map (fun i => (1 + i, r (1 + i)))),
        (List.range n).map (fun i => (1 + i, r (1 + i))), n) := by
  subst hn
  rw [ensureLoop_skip transport parser model ad prompt mr r mr.toNat mr.toNat 1 [] 0
      (by omega)
      (fun i h1 h2 => hT i h1 (by omega))
      (fun i h1 h2 => hnd i h1 (by omega))
      (fun i h1 h2 => hfail i h1 (by omega))]
  simp only [Nat.sub_self, ensureLoop, List.nil_append, Nat.zero_add]

/-- The full retry loop when attempts 1..k-1 yield responses the parser
rejects (none a decline) and the transport fails on attempt k: the
transport failure propagates, with no record entry for attempt k. -/
theorem ensureLoop_transport_failure {ε α : Type}
    (transport : Nat → String → String → Except ε String)
    (parser : String → Except String α) (model : String) (ad : Bool)
    (prompt : String) (mr : Int) (r : Nat → String) (k : Nat) (e : ε)
    (hk1 : 1 ≤ k) (hk : k ≤ mr.toNat)
    (hT : ∀ i, 1 ≤ i → i < k → transport i model prompt = Except.ok (r i))
    (hnd : ∀ i, 1 ≤ i → i < k → ¬(ad = true ∧ declineNormalized (r i) = "declined"))
    (hfail : ∀ i, 1 ≤ i → i < k → ∃ msg, parser (r i) = Except.error msg)
    (hTk : transport k model prompt = Except.error e) :
    ensureLoop transport parser model ad prompt mr mr.toNat 1 [] 0 =
      (.transportFailure e, (List.range (k - 1)).map (fun i => (1 + i, r (1 + i))), k) := by
  rw [ensureLoop_skip transport parser model ad prompt mr r (k - 1) mr.toNat 1 [] 0
      (by omega)
      (fun i h1 h2 => hT i h1 (by omega))
      (fun i h1 h2 => hnd i h1 (by omega))
      (fun i h1 h2 => hfail i h1 (by omega))]
  have h1k : 1 + (k - 1) = k := by omega
  have hrem : mr.toNat - (k - 1) = (mr.toNat - k) + 1 := by omega
  rw [h1k, hrem]
  simp only [ensureLoop, hTk, List.nil_append]
  have hd : 0 + (k - 1) + 1 = k := by omega
  rw [hd]

/-! ## Claim theorems -/

/-- C1: for every call to `ensure` with a parser and a transport whose
responses parse-fail on attempts 1..k-1 and parse successfully on
attempt k (k at most the resolved maximum-retries, no response
classified as a decline), `ensure` returns the value parsed on attempt k
immediately, performs exactly k transport dispatches, and the attempt
record at that point holds exactly k entries keyed 1..k. -/
theorem ensure_success_after_parse_failures {ε α : Type}
    (client : ClientState) (body : String) (parser : String → Except String α)
    (mro : Option Int) (ado : Option Bool)
    (transport : Nat → String → String → Except ε String)
    (r : Nat → String) (k : Nat) (v : α)
    (hk1 : 1 ≤ k)
    (hk : (k : Int) ≤ resolvedRetries client mro)
    (hT : ∀ i, 1 ≤ i → i ≤ k →
      transport i client.model
          (composePrompt (client.std_preface.getD "") body (resolvedDecline client ado)) =
        Except.ok (r i))
    (hnd : ∀ i, 1 ≤ i → i ≤ k →
      ¬(resolvedDecline client ado = true ∧ declineNormalized (r i) = "declined"))
    (hfail : ∀ i, 1 ≤ i → i < k → ∃ msg, parser (r i) = Except.error msg)
    (hok : parser (r k) = Except.ok v) :
    (ensure client body parser mro ado transport).outcome = EnsureOutcome.ok v ∧
    (ensure client body parser mro ado transport).dispatches = k ∧
    (ensure client body parser mro ado transport).response_log =
      (List.range k).map (fun i => (1 + i, r (1 + i))) := by
  have hkn : k ≤ (resolvedRetries client mro).toNat := by omega
  rw [ensure_eq, ensureLoop_success transport parser client.model (resolvedDecline client ado)
    (composePrompt (client.std_preface.getD "") body (resolvedDecline client ado))
    (resolvedRetries client mro) r k v hk1 hkn hT hnd hfail hok]
  exact ⟨rfl, rfl, rfl⟩

/-- C2: for every call to `ensure` with decline-allowed resolved to true,
if the raw responses of attempts 1..k-1 parse-fail without declining and
the raw response of attempt k, after stripping whitespace, deleting
quote characters and lower-casing, equals the decline sentinel, then
`ensure` raises `LLMDeclinedError` carrying the composed prompt at
attempt k: exactly k dispatches, and the outcome does not depend on the
parser's behaviour on that response (the conclusion holds for every
parser). -/
theorem ensure_decline_short_circuits {ε α : Type}
    (client : ClientState) (body : String) (parser : String → Except String α)
    (mro : Option Int) (ado : Option Bool)
    (transport : Nat → String → String → Except ε String)
    (r : Nat → String) (k : Nat)
    (hk1 : 1 ≤ k)
    (hk : (k : Int) ≤ resolvedRetries client mro)
    (had : resolvedDecline client ado = true)
    (hT : ∀ i, 1 ≤ i → i ≤ k →
      transport i client.model
          (composePrompt (client.std_preface.getD "") body (resolvedDecline client ado)) =
        Except.ok (r i))
    (hnd : ∀ i, 1 ≤ i → i < k → declineNormalized (r i) ≠ "declined")
    (hfail : ∀ i, 1 ≤ i → i < k → ∃ msg, parser (r i) = Except.error msg)
    (hdk : declineNormalized (r k) = "declined") :
    (ensure client body parser mro ado transport).outcome =
      EnsureOutcome.declined
        (composePrompt (client.std_preface.getD "") body (resolvedDecline client ado)) ∧
    (ensure client body parser mro ado transport).dispatches = k ∧
    (ensure client body parser mro ado transport).response_log =
      (List.range k).map (fun i => (1 + i, r (1 + i))) := by
  have hkn : k ≤ (resolvedRetries client mro).toNat := by omega
  rw [ensure_eq, ensureLoop_declined transport parser client.model (resolvedDecline client ado)
    (composePrompt (client.std_preface.getD "") body (resolvedDecline client ado))
    (resolvedRetries client mro) r k hk1 hkn had hT hnd hfail hdk]
  exact ⟨rfl, rfl, rfl⟩

/-- C3: for every call to `ensure` with resolved maximum-retries n ≥ 1,
if every one of the n attempts yields a response the parser rejects with
`ParseFailedError` and none is classified as a decline, then `ensure`
raises `LLMRetriesError` carrying the resolved maximum-retries count,
the composed prompt, and an attempt record of exactly n entries keyed
1..n, each mapping to the verbatim raw response of that attempt. -/
theorem ensure_retries_exhausted_record {ε α : Type}
    (client : ClientState) (body : String) (parser : String → Except String α)
    (mro : Option Int) (ado : Option Bool)
    (transport : Nat → String → String → Except ε String)
    (r : Nat → String) (n : Nat)
    (hn1 : 1 ≤ n)
    (hmr : resolvedRetries client mro = (n : Int))
    (hT : ∀ i, 1 ≤ i → i ≤ n →
      transport i client.model
          (composePrompt (client.std_preface.getD "") body (resolvedDecline client ado)) =
        Except.ok (r i))
    (hnd : ∀ i, 1 ≤ i → i ≤ n →
      ¬(resolvedDecline client ado = true ∧ declineNormalized (r i) = "declined"))
    (hfail : ∀ i, 1 ≤ i → i ≤ n → ∃ msg, parser (r i) = Except.error msg) :
    (ensure client body parser mro ado transport).outcome =
      EnsureOutcome.retriesExhausted (resolvedRetries client mro)
        (composePrompt (client.std_preface.getD "") body (resolvedDecline client ado))
        ((List.range n).map (fun i => (1 + i, r (1 + i)))) ∧
    (ensure client body parser mro ado transport).dispatches = n ∧
    (ensure client body parser mro ado transport).response_log =
      (List.range n).map (fun i => (1 + i, r (1 + i))) := by
  have hn : (resolvedRetries client mro).toNat = n := by omega
  rw [ensure_eq, ensureLoop_exhausted transport parser client.model
    (resolvedDecline client ado)
    (composePrompt (client.std_preface.getD "") body (resolvedDecline client ado))
    (resolvedRetries client mro) r n hn hT hnd hfail]
  exact ⟨rfl, rfl, rfl⟩

/-- C9: for every call to `ensure`, if the transport collaborator fails
on attempt k (the earlier attempts having parse-failed without a
decline), the failure propagates unchanged to the caller: it is not
retried, not converted into an engine error, and the attempt record
holds no entry for attempt k. -/
theorem ensure_transport_failure_propagates {ε α : Type}
    (client : ClientState) (body : String) (parser : String → Except String α)
    (mro : Option Int) (ado : Option Bool)
    (transport : Nat → String → String → Except ε String)
    (r : Nat → String) (k : Nat) (e : ε)
    (hk1 : 1 ≤ k)
    (hk : (k : Int) ≤ resolvedRetries client mro)
    (hT : ∀ i, 1 ≤ i → i < k →
      transport i client.model
          (composePrompt (client.std_preface.getD "") body (resolvedDecline client ado)) =
        Except.ok (r i))
    (hnd : ∀ i, 1 ≤ i → i < k →
      ¬(resolvedDecline client ado = true ∧ declineNormalized (r i) = "declined"))
    (hfail : ∀ i, 1 ≤ i → i < k → ∃ msg, parser (r i) = Except.error msg)
    (hTk : transport k client.model
        (composePrompt (client.std_preface.getD "") body (resolvedDecline client ado)) =
      Except.error e) :
    (ensure client body parser mro ado transport).outcome =
      EnsureOutcome.transportFailure e ∧
    (ensure client body parser mro ado transport).dispatches = k ∧
    (ensure client body parser mro ado transport).response_log =
      (List.range (k - 1)).map (fun i => (1 + i, r (1 + i))) := by
  have hkn : k ≤ (resolvedRetries client mro).toNat := by omega
  rw [ensure_eq, ensureLoop_transport_failure transport parser client.model
    (resolvedDecline client ado)
    (composePrompt (client.std_preface.getD "") body (resolvedDecline client ado))
    (resolvedRetries client mro) r k e hk1 hkn hT hnd hfail hTk]
  exact ⟨rfl, rfl, rfl⟩

/-- C10: `ensure` does not validate maximum-retries ≥ 1: when the
resolved maximum-retries is 0 or negative, the loop body never runs, so
`ensure` performs zero transport dispatches and raises
`LLMRetriesError` carrying that maximum-retries value, the composed
prompt, and an empty attempt record. -/
theorem ensure_zero_retries_no_dispatch {ε α : Type}
    (client : ClientState) (body : String) (parser : String → Except String α)
    (mro : Option Int) (ado : Option Bool)
    (transport : Nat → String → String → Except ε String)
    (h : resolvedRetries client mro ≤ 0) :
    (ensure client body parser mro ado transport).outcome =
      EnsureOutcome.retriesExhausted (resolvedRetries client mro)
        (composePrompt (client.std_preface.getD "") body (resolvedDecline client ado)) [] ∧
    (ensure client body parser mro ado transport).dispatches = 0 ∧
    (ensure client body parser mro ado transport).response_log = [] := by
  have hn : (resolvedRetries client mro).toNat = 0 := by omega
  rw [ensure_eq, hn]
  exact ⟨rfl, rfl, rfl⟩

/-- C4 counterexample: the decline-instruction suffix the code appends is
not the sentence the claim quotes — the code says "respond only with the
word 'DECLINED'" (quoted, followed by a newline), not "respond only with
the exact word DECLINED.". -/
theorem decline_suffix_wording_cex :
    allow_decline_message ≠
      "If you don't have enough knowledge to provide a reasonable answer, respond only with the exact word DECLINED." := by
  decide

/-- C4 (amended): for every `ensure` call, the composed prompt — as
carried by a terminal `LLMDeclinedError` or `LLMRetriesError` — equals
the engine preface concatenated with the caller-supplied body, followed,
exactly when decline-allowed resolves to true, by the code's
decline-instruction suffix `allow_decline_message` as its final
segment (and by nothing when decline-allowed resolves to false). -/
theorem ensure_composed_prompt {ε α : Type}
    (client : ClientState) (body : String) (parser : String → Except String α)
    (mro : Option Int) (ado : Option Bool)
    (transport : Nat → String → String → Except ε String) (p : String)
    (h : carriedPrompt (ensure client body parser mro ado transport).outcome = some p) :
    p = (client.std_preface.getD "" ++ body) ++
        (if resolvedDecline client ado = true then allow_decline_message else "") := by
  rw [ensure_eq] at h
  have hp := ensureLoop_carriedPrompt transport parser client.model
    (resolvedDecline client ado)
    (composePrompt (client.std_preface.getD "") body (resolvedDecline client ado))
    (resolvedRetries client mro) (resolvedRetries client mro).toNat 1 [] 0 p h
  rw [hp]
  rcases Bool.eq_false_or_eq_true (resolvedDecline client ado) with hb | hb <;>
    simp [composePrompt, hb, String.append_empty]

/-- C5 counterexample: an `ensure` call on an engine constructed with a
`None` preface mutates the engine configuration (the preface becomes the
empty string), although no setter was called. -/
theorem ensure_none_preface_mutation_cex :
    (ensure (ClientState.mk "m" none 1 false) "p" parse_boolean none none
        (fun _ _ _ => (Except.ok "x" : Except Unit String))).client ≠
      ClientState.mk "m" none 1 false := by
  decide

/-- C5 (amended): an `ensure` call leaves the model identifier, the
maximum-retries default and the decline-allowed default unchanged, and
leaves the preface unchanged whenever it is a string; the one mutation
`ensure` performs is normalizing a `None` preface to the empty string.
`set_std_preface` and `clear_std_preface` remain the only operations
that change the preface to anything else. -/
theorem ensure_config_preservation {ε α : Type}
    (client : ClientState) (body : String) (parser : String → Except String α)
    (mro : Option Int) (ado : Option Bool)
    (transport : Nat → String → String → Except ε String) :
    (ensure client body parser mro ado transport).client =
      { client with std_preface := some (client.std_preface.getD "") } ∧
    ∀ s, client.std_preface = some s →
      (ensure client body parser mro ado transport).client = client := by
  constructor
  · rw [ensure_eq]
  · intro s hs
    rw [ensure_eq]
    obtain ⟨m, pre, mr0, ad0⟩ := client
    simp only at hs
    subst hs
    rfl

/-- C6 counterexample: on an engine whose constructed preface is the
non-empty string "X", calling `set_std_preface` then
`clear_std_preface` does not restore the original prompt composition —
`clear_std_preface` sets the preface to empty text, not back to "X". -/
theorem set_clear_preface_cex :
    ensure (clear_std_preface (set_std_preface (ClientState.mk "m" (some "X") 1 false) "t"))
        "b" parse_boolean none none
        (fun _ _ _ => (Except.ok "zzz" : Except Unit String)) ≠
      ensure (ClientState.mk "m" (some "X") 1 false) "b" parse_boolean none none
        (fun _ _ _ => (Except.ok "zzz" : Except Unit String)) := by
  decide

/-- C6 (amended): on every engine whose current preface composes as
empty text (the constructor default `""`, or `None`), calling
`set_std_preface t` followed by `clear_std_preface` leaves the engine
behaving on every subsequent `ensure` call exactly as if
`set_std_preface` had never been called. -/
theorem set_clear_preface_restores_prompt {ε α : Type}
    (client : ClientState) (t body : String) (parser : String → Except String α)
    (mro : Option Int) (ado : Option Bool)
    (transport : Nat → String → String → Except ε String)
    (h : client.std_preface.getD "" = "") :
    ensure (clear_std_preface (set_std_preface client t)) body parser mro ado transport =
      ensure client body parser mro ado transport := by
  obtain ⟨m, pre, mr0, ad0⟩ := client
  cases pre with
  | none => rfl
  | some s =>
      simp only [Option.getD_some] at h
      subst h
      rfl

/-- C7: for every input string, the boolean parser strips surrounding
whitespace and lower-cases, returns `true` exactly when the normalized
text is "true" or "yes", returns `false` exactly when it is "false" or
"no", and fails with `ParseFailedError` carrying the original text
exactly on every other input. -/
theorem parse_boolean_spec (s : String) :
    (parse_boolean s = Except.ok true ↔
      (pyLower (pyStrip s) = "true" ∨ pyLower (pyStrip s) = "yes")) ∧
    (parse_boolean s = Except.ok false ↔
      (pyLower (pyStrip s) = "false" ∨ pyLower (pyStrip s) = "no")) ∧
    (parse_boolean s = Except.error s ↔
      ¬(pyLower (pyStrip s) = "true" ∨ pyLower (pyStrip s) = "yes" ∨
        pyLower (pyStrip s) = "false" ∨ pyLower (pyStrip s) = "no")) := by
  simp only [parse_boolean]
  split_ifs with h1 h2
  · rcases h1 with h | h <;> simp [h]
  · rcases h2 with h | h <;> push_neg at h1 <;> simp [h, h1.1, h1.2]
  · push_neg at h1 h2
    simp [h1.1, h1.2, h2.1, h2.2]

/-- C8: for every input string, non-empty separator and allow-empty
flag, the string-list parser returns, in their original order, the
segments of the input split on the separator that are non-empty once
stripped (each stripped); when no segment survives it fails with
`ParseFailedError` carrying the original text exactly when allow-empty
is false, and returns the empty list when allow-empty is true.  (The
separator is required non-empty: Python's `str.split` raises
`ValueError` on an empty separator, which is outside the parser
contract.) -/
theorem stringListParser_call_spec (p : StringListParser) (s : String)
    (hsep : p.separator ≠ "") :
    (((pySplit p.separator s).map pyStrip).filter (fun x => x ≠ "") ≠ [] →
      p.call s =
        Except.ok (((pySplit p.separator s).map pyStrip).filter (fun x => x ≠ ""))) ∧
    (∀ l, p.call s = Except.ok l →
      l = ((pySplit p.separator s).map pyStrip).filter (fun x => x ≠ "") ∧
      ∀ x ∈ l, x ≠ "" ∧ ∃ seg ∈ pySplit p.separator s, x = pyStrip seg) ∧
    (p.call s = Except.error s ↔
      ((pySplit p.separator s).map pyStrip).filter (fun x => x ≠ "") = [] ∧
        p.allow_empty = false) ∧
    (((pySplit p.separator s).map pyStrip).filter (fun x => x ≠ "") = [] →
      p.allow_empty = true → p.call s = Except.ok []) := by
  simp only [StringListParser.call]
  split_ifs with hc
  · refine ⟨?_, ?_, ?_, ?_⟩
    · intro hne
      exact absurd hc.1 hne
    · intro l hl
      exact absurd hl (by simp)
    · exact iff_of_true rfl hc
    · intro _ hae
      rw [hae] at hc
      simp at hc
  · refine ⟨?_, ?_, ?_, ?_⟩
    · intro _
      rfl
    · intro l hl
      rw [Except.ok.injEq] at hl
      subst hl
      refine ⟨rfl, ?_⟩
      intro x hx
      rw [List.mem_filter] at hx
      obtain ⟨hmem, hne⟩ := hx
      rw [List.mem_map] at hmem
      obtain ⟨seg, hseg, hstrip⟩ := hmem
      refine ⟨by simpa using hne, seg, hseg, hstrip.symm⟩
    · simp only [not_and_or] at hc
      constructor
      · intro hcontra
        exact absurd hcontra (by simp)
      · intro ⟨hempty, hae⟩
        rcases hc with hc | hc
        · exact absurd hempty hc
        · rw [hae] at hc
          simp at hc
    · intro hempty _
      rw [hempty]

/-! ## Concrete witness scenarios -/

/-- Response stub of the success scenario: unparsable text on attempts
1 and 2, a parseable boolean on attempt 3 and beyond. -/
def r_success : Nat → String := fun i => if i ≤ 2 then "maybe" else "yes"

/-- Transport stub returning the `r_success` responses. -/
def transport_success : Nat → String → String → Except Unit String :=
  fun i _ _ => Except.ok (r_success i)

/-- Engine of the success scenario: preface "pre ", maximum retries 5,
decline allowed. -/
def client_success : ClientState := ClientState.mk "gpt" (some "pre ") 5 true

theorem ensure_success_after_parse_failures_witness :
    (ensure client_success "Q" parse_boolean none none transport_success).outcome =
      EnsureOutcome.ok true ∧
    (ensure client_success "Q" parse_boolean none none transport_success).dispatches = 3 ∧
    (ensure client_success "Q" parse_boolean none none transport_success).response_log =
      (List.range 3).map (fun i => (1 + i, r_success (1 + i))) :=
  ensure_success_after_parse_failures client_success "Q" parse_boolean none none
    transport_success r_success 3 true (by omega) (by decide)
    (fun i h1 h2 => by interval_cases i <;> rfl)
    (fun i h1 h2 => by interval_cases i <;> decide)
    (fun i h1 h2 => by interval_cases i <;> exact ⟨"maybe", rfl⟩)
    rfl

/-- Response stub of the decline scenario: "DECLINED" on every call. -/
def r_decline : Nat → String := fun _ => "DECLINED"

/-- Transport stub returning the `r_decline` responses. -/
def transport_decline : Nat → String → String → Except Unit String :=
  fun i _ _ => Except.ok (r_decline i)

/-- Engine of the decline scenario: empty preface, maximum retries 3,
decline allowed. -/
def client_decline : ClientState := ClientState.mk "gpt" (some "") 3 true

theorem ensure_decline_short_circuits_witness :
    (ensure client_decline "ask" parse_boolean none none transport_decline).outcome =
      EnsureOutcome.declined
        (composePrompt (client_decline.std_preface.getD "") "ask"
          (resolvedDecline client_decline none)) ∧
    (ensure client_decline "ask" parse_boolean none none transport_decline).dispatches = 1 ∧
    (ensure client_decline "ask" parse_boolean none none transport_decline).response_log =
      (List.range 1).map (fun i => (1 + i, r_decline (1 + i))) :=
  ensure_decline_short_circuits client_decline "ask" parse_boolean none none
    transport_decline r_decline 1 (by omega) (by decide) (by decide)
    (fun i h1 h2 => rfl)
    (fun i h1 h2 => by omega)
    (fun i h1 h2 => by omega)
    (by decide)

/-- Response stub of the exhaustion scenario: unparsable text on every
call. -/
def r_unparsable : Nat → String := fun _ => "zzz"

/-- Transport stub returning the `r_unparsable` responses. -/
def transport_unparsable : Nat → String → String → Except Unit String :=
  fun i _ _ => Except.ok (r_unparsable i)

/-- Engine of the exhaustion scenario: empty preface, maximum retries 3,
decline not allowed. -/
def client_exhaust : ClientState := ClientState.mk "gpt" (some "") 3 false

theorem ensure_retries_exhausted_record_witness :
    (ensure client_exhaust "ask" parse_boolean none none transport_unparsable).outcome =
      EnsureOutcome.retriesExhausted (resolvedRetries client_exhaust none)
        (composePrompt (client_exhaust.std_preface.getD "") "ask"
          (resolvedDecline client_exhaust none))
        ((List.range 3).map (fun i => (1 + i, r_unparsable (1 + i)))) ∧
    (ensure client_exhaust "ask" parse_boolean none none transport_unparsable).dispatches = 3 ∧
    (ensure client_exhaust "ask" parse_boolean none none transport_unparsable).response_log =
      (List.range 3).map (fun i => (1 + i, r_unparsable (1 + i))) :=
  ensure_retries_exhausted_record client_exhaust "ask" parse_boolean none none
    transport_unparsable r_unparsable 3 (by omega) (by decide)
    (fun i h1 h2 => rfl)
    (fun i h1 h2 hc => absurd hc.1 (by decide))
    (fun i h1 h2 => ⟨"zzz", rfl⟩)

theorem ensure_composed_prompt_witness :
    composePrompt "pre " "Q" true =
      ((ClientState.mk "gpt" (some "pre ") 0 true).std_preface.getD "" ++ "Q") ++
        (if resolvedDecline (ClientState.mk "gpt" (some "pre ") 0 true) none = true
          then allow_decline_message else "") :=
  ensure_composed_prompt (ClientState.mk "gpt" (some "pre ") 0 true) "Q" parse_boolean
    none none (fun _ _ _ => (Except.ok "x" : Except Unit String))
    (composePrompt "pre " "Q" true) rfl

theorem set_clear_preface_restores_prompt_witness :
    ensure (clear_std_preface (set_std_preface (ClientState.mk "m" (some "") 2 false) "t"))
        "b" parse_boolean none none
        (fun _ _ _ => (Except.ok "yes" : Except Unit String)) =
      ensure (ClientState.mk "m" (some "") 2 false) "b" parse_boolean none none
        (fun _ _ _ => (Except.ok "yes" : Except Unit String)) :=
  set_clear_preface_restores_prompt (ClientState.mk "m" (some "") 2 false) "t" "b"
    parse_boolean none none (fun _ _ _ => (Except.ok "yes" : Except Unit String)) rfl

theorem stringListParser_call_spec_witness :
    (StringListParser.mk "," false).call "a,b,c" = Except.ok ["a", "b", "c"] :=
  (stringListParser_call_spec (StringListParser.mk "," false) "a,b,c" (by decide)).1
    (by decide)

/-- Response stub of the transport-failure scenario: a parseable-but-
rejected response on attempt 1 (the transport fails on attempt 2). -/
def r_flaky : Nat → String := fun _ => "zzz"

/-- Transport stub that succeeds on attempt 1 and fails with error code
7 from attempt 2 on. -/
def transport_flaky : Nat → String → String → Except Nat String :=
  fun i _ _ => if i = 1 then Except.ok (r_flaky i) else Except.error 7

/-- Engine of the transport-failure scenario. -/
def client_flaky : ClientState := ClientState.mk "gpt" (some "") 3 false

theorem ensure_transport_failure_propagates_witness :
    (ensure client_flaky "ask" parse_boolean none none transport_flaky).outcome =
      EnsureOutcome.transportFailure 7 ∧
    (ensure client_flaky "ask" parse_boolean none none transport_flaky).dispatches = 2 ∧
    (ensure client_flaky "ask" parse_boolean none none transport_flaky).response_log =
      (List.range (2 - 1)).map (fun i => (1 + i, r_flaky (1 + i))) :=
  ensure_transport_failure_propagates client_flaky "ask" parse_boolean none none
    transport_flaky r_flaky 2 7 (by omega) (by decide)
    (fun i h1 h2 => by interval_cases i <;> rfl)
    (fun i h1 h2 hc => absurd hc.1 (by decide))
    (fun i h1 h2 => ⟨"zzz", rfl⟩)
    rfl

/-- Engine of the zero-retries scenario: maximum retries 0. -/
def client_zero : ClientState := ClientState.mk "gpt" (some "") 0 true

theorem ensure_zero_retries_no_dispatch_witness :
    (ensure client_zero "ask" parse_boolean none none transport_unparsable).outcome =
      EnsureOutcome.retriesExhausted (resolvedRetries client_zero none)
        (composePrompt (client_zero.std_preface.getD "") "ask"
          (resolvedDecline client_zero none)) [] ∧
    (ensure client_zero "ask" parse_boolean none none transport_unparsable).dispatches = 0 ∧
    (ensure client_zero "ask" parse_boolean none none transport_unparsable).response_log = [] :=
  ensure_zero_retries_no_dispatch client_zero "ask" parse_boolean none none
    transport_unparsable (by decide)

end OpenAIParsed
